import Mathlib

/-!
Verification development for the ai-chat-webapp repository.

The frontend client logic is embedded from `frontend/src/App.jsx`
(the `sendMessage` callback, the `isDuplicateMessage` dedup check, the
response/catch/finally handling, and `clearChat`).  React state updates
are modelled as explicit state passing on a `ClientState` record; the
asynchronous `fetch` is split into the synchronous prefix of
`sendMessage` (which issues the request) and a separate `handleResponse`
step consuming the outcome of the in-flight request.

The backend heuristics (`_is_repetitive`, the keyword fallback table and
the chat endpoint's reply validation, in `backend/app/model.py` /
`backend/app/main.py`) are not present in the source tree; they are
modelled from the specification, with doc comments marking each such
definition.
-/

namespace ChatApp

/-- Message role, embedding the string constants `'user'` / `'assistant'`
used in `App.jsx`. -/
inductive Role where
  | user
  | assistant
deriving DecidableEq, Repr

/-- A chat message as built in `App.jsx` (`{ id, role, content, timestamp }`).
Timestamps are `Date.now()` values, embedded as `Nat`. -/
structure Message where
  id : String
  role : Role
  content : String
  timestamp : Nat
deriving DecidableEq, Repr

/-- The `lastMessageRef` record of `App.jsx`:
`{ role: null, content: null, timestamp: 0 }` initially, overwritten with
the role/content/timestamp of each appended message. -/
structure LastMsg where
  role : Option Role
  content : Option String
  timestamp : Nat
deriving DecidableEq, Repr

/-- The request body issued by the `fetch` in `sendMessage`
(`{ message, history }`), together with the `userMessageId` that the
response continuation deletes from `pendingMessagesRef`. -/
structure ChatRequest where
  message : String
  history : List (Role × String)
  userMessageId : String
deriving DecidableEq, Repr

/-- The client chat state of `App.jsx`: React state hooks (`messages`,
`input`, `loading`, `error`, `connectionStatus`) and mutable refs
(`sendingRef`, `pendingMessagesRef`, `lastMessageRef`).  `request` holds
the in-flight fetch, `none` when no request is outstanding. -/
structure ClientState where
  messages : List Message
  input : String
  loading : Bool
  error : Option String
  connectionStatus : String
  sendingRef : Bool
  pendingIds : List String
  lastMessage : LastMsg
  request : Option ChatRequest
deriving DecidableEq, Repr

/-- The initial client state (the `useState` / `useRef` initial values). -/
def initialState : ClientState :=
  { messages := []
    input := ""
    loading := false
    error := none
    connectionStatus := "checking"
    sendingRef := false
    pendingIds := []
    lastMessage := { role := none, content := none, timestamp := 0 }
    request := none }

/-- `API_URL` of `App.jsx` (production default `http://localhost:8000`). -/
def API_URL : String := "http://localhost:8000"

/-- Whitespace as recognised by JavaScript `String.prototype.trim`
(restricted to the ASCII whitespace actually typable in the input box). -/
def isWhitespaceChar (c : Char) : Bool :=
  c = ' ' || c = '\t' || c = '\n' || c = '\r'

/-- Strip leading and trailing whitespace from a character list. -/
def trimChars (l : List Char) : List Char :=
  ((l.dropWhile isWhitespaceChar).reverse.dropWhile isWhitespaceChar).reverse

/-- Embedding of JavaScript `input.trim()` as a structurally recursive
function on the string's character list. -/
def jsTrim (s : String) : String :=
  String.mk (trimChars s.data)

/-- `isDuplicateMessage(role, content)` from `App.jsx`: true iff the last
appended message (tracked in `lastMessageRef`) has the same role, identical
content, and was appended less than 2000 ms ago. -/
def isDuplicateMessage (last : LastMsg) (role : Role) (content : String)
    (now : Nat) : Bool :=
  decide (last.role = some role) && decide (last.content = some content) &&
    decide (now - last.timestamp < 2000)

/-- The duplicate-in-state check of the `setMessages` updater in
`sendMessage` (lines 114-122): the last message of the current list is a
user message with exactly the submitted content. -/
def userDupInState (msgs : List Message) (userMessage : String) : Bool :=
  match msgs.getLast? with
  | some lastMsg =>
      decide (lastMsg.role = Role.user) && decide (lastMsg.content = userMessage)
  | none => false

/-- The synchronous part of `sendMessage` from `App.jsx`, up to and
including issuing the `fetch`.  `now` is `Date.now()` and `msgId` the
value of `generateMessageId()`.  Guards: the `sendingRef`/`loading`/empty
input early return (line 72), the `isDuplicateMessage` check (line 80),
the no-op read of state (lines 86-93), the pending-id check (lines
100-103, whose net effect on the state is nil since `sendingRef` is set
and then cleared), the `setMessages` updater with the duplicate-in-state
branch (lines 114-130), and finally the fetch (lines 132-147) whose
`history` is built from the stale closure value of `messages`, i.e. the
message list as it was at the start of the call.  Note that the fetch is
issued even when the duplicate-in-state branch fired, because the early
return inside the updater does not abort the enclosing function. -/
def sendMessage (s : ClientState) (now : Nat) (msgId : String) : ClientState :=
  if s.sendingRef || s.loading || decide (jsTrim s.input = "") then s
  else
    let userMessage := jsTrim s.input
    if isDuplicateMessage s.lastMessage Role.user userMessage now then s
    else if s.pendingIds.contains msgId then s
    else
      let s1 : ClientState :=
        { s with
          sendingRef := true
          pendingIds := msgId :: s.pendingIds
          input := ""
          error := none
          loading := true
          lastMessage :=
            { role := some Role.user, content := some userMessage, timestamp := now } }
      let s2 : ClientState :=
        if userDupInState s1.messages userMessage then
          { s1 with
            pendingIds := s1.pendingIds.erase msgId
            sendingRef := false
            loading := false }
        else
          { s1 with
            messages := s1.messages ++
              [{ id := msgId, role := Role.user, content := userMessage, timestamp := now }] }
      { s2 with
        request := some
          { message := userMessage
            history := s.messages.map (fun m => (m.role, m.content))
            userMessageId := msgId } }

/-- Typing into the input box (`setInput` via the `onChange` handler). -/
def setInput (s : ClientState) (text : String) : ClientState :=
  { s with input := text }

/-- Typing `text` and then invoking `sendMessage`. -/
def submit (s : ClientState) (text : String) (now : Nat) (msgId : String) :
    ClientState :=
  sendMessage (setInput s text) now msgId

/-- The outcome of the in-flight `fetch`, abstracting the network:
a non-OK HTTP status, an `AbortError` timeout, a `TypeError` from an
unreachable backend, or an HTTP-OK JSON body whose `reply` field is
`none` (absent) or the given string. -/
inductive FetchOutcome where
  | httpError (status : Nat)
  | timeout
  | networkError
  | ok (reply : Option String)
deriving DecidableEq, Repr

/-- True for the outcomes that make the `fetch` fail before a JSON body
with a `reply` field is obtained: non-OK status, timeout, unreachable. -/
def FetchOutcome.isNetFailure : FetchOutcome → Bool
  | .httpError _ => true
  | .timeout => true
  | .networkError => true
  | .ok _ => false

/-- The status-specific error message built in `sendMessage`
(lines 149-163), including the `(status)` suffix of the thrown error. -/
def httpErrorMessage (status : Nat) : String :=
  let base :=
    if status = 403 then
      "Accès refusé. Vérifiez que le backend est démarré et que CORS est configuré correctement."
    else if status = 404 then
      "Endpoint non trouvé. Vérifiez l\x27URL de l\x27API."
    else if status = 500 then
      "Erreur serveur. Le modèle n\x27est peut-être pas chargé."
    else if status = 503 then
      "Service indisponible. Le modèle est en cours de chargement..."
    else
      "Erreur " ++ toString status
  base ++ " (" ++ toString status ++ ")"

/-- The user-facing error message that the catch block of `sendMessage`
(lines 217-227) stores for each failing outcome. -/
def errorMessageFor : FetchOutcome → String
  | .httpError status => httpErrorMessage status
  | .timeout =>
      "Timeout: La requête a pris trop de temps. Le modèle est peut-être en train de se charger."
  | .networkError =>
      "Impossible de se connecter au backend. Vérifiez que le serveur est démarré sur " ++ API_URL
  | .ok _ => "Réponse invalide du serveur"

/-- The continuation of `sendMessage` after the `fetch` settles
(lines 149-231 of `App.jsx`): the response-ok path with its reply
validation and strict assistant-side deduplication, the catch block
mapping errors to messages, and the finally block clearing `loading` and
`sendingRef`.  `replyTime` is the `Date.now()` of the reply and
`assistantId` the fresh `generateMessageId()`.  A no-op when no request
is in flight. -/
def handleResponse (s : ClientState) (outcome : FetchOutcome)
    (replyTime : Nat) (assistantId : String) : ClientState :=
  match s.request with
  | none => s
  | some req =>
    match outcome with
    | .httpError status =>
        { s with
          pendingIds := s.pendingIds.erase req.userMessageId
          error := some (httpErrorMessage status)
          loading := false
          sendingRef := false
          request := none }
    | .timeout =>
        { s with
          pendingIds := s.pendingIds.erase req.userMessageId
          error := some
            "Timeout: La requête a pris trop de temps. Le modèle est peut-être en train de se charger."
          loading := false
          sendingRef := false
          request := none }
    | .networkError =>
        { s with
          pendingIds := s.pendingIds.erase req.userMessageId
          error := some
            ("Impossible de se connecter au backend. Vérifiez que le serveur est démarré sur " ++ API_URL)
          connectionStatus := "disconnected"
          loading := false
          sendingRef := false
          request := none }
    | .ok replyField =>
      match replyField with
      | none =>
          { s with
            pendingIds := s.pendingIds.erase req.userMessageId
            error := some "Réponse invalide du serveur"
            loading := false
            sendingRef := false
            request := none }
      | some reply =>
        if decide (reply = "") then
          { s with
            pendingIds := s.pendingIds.erase req.userMessageId
            error := some "Réponse invalide du serveur"
            loading := false
            sendingRef := false
            request := none }
        else if isDuplicateMessage s.lastMessage Role.assistant reply replyTime then
          { s with
            pendingIds := s.pendingIds.erase req.userMessageId
            loading := false
            sendingRef := false
            request := none }
        else
          let s1 : ClientState :=
            { s with
              lastMessage :=
                { role := some Role.assistant, content := some reply,
                  timestamp := replyTime } }
          let lastIsDup : Bool :=
            match s1.messages.getLast? with
            | some lastMsg =>
                decide (lastMsg.role = Role.assistant) && decide (lastMsg.content = reply)
            | none => false
          let recentDup : Bool :=
            (s1.messages.drop (s1.messages.length - 3)).any
              (fun m => decide (m.role = Role.assistant) && decide (m.content = reply))
          let s2 : ClientState :=
            if lastIsDup then
              { s1 with pendingIds := s1.pendingIds.erase req.userMessageId }
            else if recentDup then
              { s1 with pendingIds := s1.pendingIds.erase req.userMessageId }
            else
              { s1 with
                pendingIds := s1.pendingIds.erase req.userMessageId
                messages := s1.messages ++
                  [{ id := assistantId, role := Role.assistant, content := reply,
                     timestamp := replyTime }] }
          { s2 with
            connectionStatus := "connected"
            loading := false
            sendingRef := false
            request := none }

/-- `clearChat` from `App.jsx`: clears the message list, the error, the
pending-id set and resets `lastMessageRef`. -/
def clearChat (s : ClientState) : ClientState :=
  { s with
    messages := []
    error := none
    pendingIds := []
    lastMessage := { role := none, content := none, timestamp := 0 } }

/-- Modelled from the spec: the minimum-length threshold of the Quality
Gate (`_is_repetitive` in `backend/app/model.py`, absent from the source
tree); replies shorter than this are degenerate. -/
def minReplyLength : Nat := 5

/-- Modelled from the spec: the repetition-count threshold beyond which a
single repeated character (or short cycle of characters) makes a reply
degenerate. -/
def charRepeatThreshold : Nat := 6

/-- Modelled from the spec: the threshold count of consecutive identical
words beyond which a reply is degenerate. -/
def wordRepeatThreshold : Nat := 3

/-- Modelled from the spec: the punctuation characters recognised by the
Quality Gate's only-punctuation check. -/
def punctuationChars : List Char :=
  [',', '.', '!', '?', ';', ':', '-']

/-- The reply consists only of punctuation characters (and is nonempty). -/
def onlyPunctuation (l : List Char) : Bool :=
  !l.isEmpty && l.all (fun c => punctuationChars.contains c)

/-- The character sequence has period at most two: every character equals
the one two positions later.  This captures a single repeated character
as well as a short (length-two) repeated cycle such as `",.,.,.,."`. -/
def periodTwo (l : List Char) : Bool :=
  (l.zip (l.drop 2)).all (fun p => decide (p.1 = p.2))

/-- Modelled from the spec: the Quality Gate's repeated-character check -
a single character or a short cycle of characters repeated beyond the
threshold count. -/
def charCycleRepeated (l : List Char) : Bool :=
  decide (charRepeatThreshold ≤ l.length) && periodTwo l

/-- Split a character list into its whitespace-separated words. -/
def wordsOf (l : List Char) : List (List Char) :=
  (l.splitOnP isWhitespaceChar).filter (fun w => !w.isEmpty)

/-- Length of the longest run of consecutive equal words, accumulating
the current run and the best run seen so far. -/
def maxRunAux : List (List Char) → List Char → Nat → Nat → Nat
  | [], _, cur, best => max cur best
  | w :: rest, prev, cur, best =>
      if w = prev then maxRunAux rest w (cur + 1) best
      else maxRunAux rest w 1 (max cur best)

/-- Length of the longest run of consecutive equal words in a word list. -/
def maxWordRun : List (List Char) → Nat
  | [] => 0
  | w :: rest => maxRunAux rest w 1 0

/-- Modelled from the spec: the Quality Gate's consecutive-word-repetition
check - the same word repeated consecutively at least the threshold count
of times. -/
def wordRunRepeated (l : List Char) : Bool :=
  decide (wordRepeatThreshold ≤ maxWordRun (wordsOf l))

/-- Modelled from the spec: the Quality Gate `_is_repetitive` of
`backend/app/model.py`, which is not present in the source tree.  A
reply is degenerate when its length is below the minimum threshold, a
single character (or short cycle) is repeated beyond the threshold
count, the same word is repeated consecutively beyond the threshold
count, or the content consists only of punctuation.  A pure function of
the reply string. -/
def isRepetitive (reply : String) : Bool :=
  let l := reply.data
  if l.length < minReplyLength then true
  else if charCycleRepeated l then true
  else if wordRunRepeated l then true
  else if onlyPunctuation l then true
  else false

/-- Modelled from the spec: the CV-help canned reply of the fallback
table (text given in the repository's improvement notes). -/
def cvHelpReply : String :=
  "Je peux vous aider avec votre CV! Que souhaitez-vous savoir? Par exemple, je peux vous aider à rédiger une section ou à améliorer votre présentation."

/-- Modelled from the spec: the greeting canned reply. -/
def greetingReply : String :=
  "Bonjour! Comment puis-je vous aider aujourd\x27hui?"

/-- Modelled from the spec: the acknowledgement canned reply. -/
def thanksReply : String :=
  "De rien! N\x27hésitez pas si vous avez d\x27autres questions."

/-- Modelled from the spec: the generic please-clarify reply returned
when no keyword matches. -/
def clarifyReply : String :=
  "Pouvez-vous préciser votre question? Donnez-moi plus de détails pour que je puisse mieux vous aider."

/-- `needle` is a prefix of `haystack` (character-by-character). -/
def isPrefixOfChars : List Char → List Char → Bool
  | [], _ => true
  | _ :: _, [] => false
  | a :: as, b :: bs => decide (a = b) && isPrefixOfChars as bs

/-- `needle` occurs as a contiguous substring of `haystack`. -/
def isInfixOfChars (needle : List Char) : List Char → Bool
  | [] => needle.isEmpty
  | c :: rest => isPrefixOfChars needle (c :: rest) || isInfixOfChars needle rest

/-- ASCII lower-casing of a single character (embedding of JavaScript /
Python lower-casing restricted to the ASCII keywords of the table). -/
def toLowerChar (c : Char) : Char :=
  if decide (65 ≤ c.toNat ∧ c.toNat ≤ 90) then Char.ofNat (c.toNat + 32) else c

/-- Lower-case a character list. -/
def lowerChars (l : List Char) : List Char :=
  l.map toLowerChar

/-- Modelled from the spec: the Fallback Responder of
`backend/app/model.py`, absent from the source tree.  The user message is
lower-cased and trimmed, then matched by substring against a small fixed
keyword table ("cv" → CV help, "bonjour"/"salut" → greeting, "merci" →
acknowledgement), returning the first matching canned string, else the
generic please-clarify reply.  Deterministic and stateless. -/
def fallbackResponse (userMessage : String) : String :=
  let m := lowerChars (trimChars userMessage.data)
  if isInfixOfChars "cv".data m then cvHelpReply
  else if isInfixOfChars "bonjour".data m then greetingReply
  else if isInfixOfChars "salut".data m then greetingReply
  else if isInfixOfChars "merci".data m then thanksReply
  else clarifyReply

/-- Modelled from the spec: the reply validation of the Chat Endpoint
(`backend/app/main.py` / `backend/app/model.py`, absent from the source
tree): the generated reply is returned as-is when the Quality Gate
accepts it, and replaced by the Fallback Responder's canned string when
the Quality Gate rejects it as degenerate. -/
def chatEndpoint (userMessage generated : String) : String :=
  if isRepetitive generated then fallbackResponse userMessage else generated

/-- None of the fallback table's keywords occurs in the lower-cased,
trimmed form of the user message. -/
def noKeywordMatch (s : String) : Prop :=
  isInfixOfChars "cv".data (lowerChars (trimChars s.data)) = false ∧
  isInfixOfChars "bonjour".data (lowerChars (trimChars s.data)) = false ∧
  isInfixOfChars "salut".data (lowerChars (trimChars s.data)) = false ∧
  isInfixOfChars "merci".data (lowerChars (trimChars s.data)) = false

/-- The client states reachable from the initial render by typing,
invoking `sendMessage`, consuming a fetch outcome, or clearing the chat. -/
inductive Reachable : ClientState → Prop where
  | init : Reachable initialState
  | type (s : ClientState) (text : String) :
      Reachable s → Reachable (setInput s text)
  | send (s : ClientState) (now : Nat) (msgId : String) :
      Reachable s → Reachable (sendMessage s now msgId)
  | response (s : ClientState) (out : FetchOutcome) (t : Nat) (aid : String) :
      Reachable s → Reachable (handleResponse s out t aid)
  | clear (s : ClientState) :
      Reachable s → Reachable (clearChat s)

/-- A character-period-two list stays period two: every zipped pair of a
replicated character list is the constant pair. -/
theorem periodTwo_replicate (c : Char) (n : Nat) :
    periodTwo (List.replicate n c) = true := by
  unfold periodTwo
  rw [List.all_eq_true]
  rintro ⟨a, b⟩ hp
  have h := List.of_mem_zip hp
  have ha := List.eq_of_mem_replicate h.1
  have hb := List.eq_of_mem_replicate (List.mem_of_mem_drop h.2)
  simp [ha, hb]

/-- The Quality Gate is exactly the disjunction of its four conditions. -/
theorem isRepetitive_iff (r : String) :
    isRepetitive r = true ↔
      (r.data.length < minReplyLength ∨ charCycleRepeated r.data = true ∨
        wordRunRepeated r.data = true ∨ onlyPunctuation r.data = true) := by
  simp only [isRepetitive]
  split_ifs with h1 h2 h3 h4 <;> simp_all

/-- A single character repeated at least the threshold count of times is
rejected by the Quality Gate. -/
theorem replicate_char_repetitive (c : Char) (n : Nat)
    (h : charRepeatThreshold ≤ n) :
    isRepetitive (String.mk (List.replicate n c)) = true := by
  rw [isRepetitive_iff]
  right; left
  show charCycleRepeated (List.replicate n c) = true
  unfold charCycleRepeated
  simp [h, periodTwo_replicate]

/-- The Fallback Responder never returns the empty string: every canned
reply of the table is nonempty. -/
theorem fallbackResponse_ne_empty (u : String) : fallbackResponse u ≠ "" := by
  simp only [fallbackResponse]
  split_ifs <;> decide

/-- The empty reply is rejected by the Quality Gate. -/
theorem isRepetitive_empty : isRepetitive "" = true := by decide

/-- C7: the Quality Gate is a pure function from a reply string to a
boolean that classifies the reply as degenerate iff its length is below
the minimum threshold, a single character or short cycle is repeated
beyond the threshold count, the same word is repeated consecutively
beyond the threshold count, or the content is only punctuation; in
particular, any reply consisting of one character repeated at least the
threshold count of times is classified degenerate. -/
theorem quality_gate_classification :
    (∀ r : String, isRepetitive r = true ↔
      (r.data.length < minReplyLength ∨ charCycleRepeated r.data = true ∨
        wordRunRepeated r.data = true ∨ onlyPunctuation r.data = true))
    ∧ (∀ (c : Char) (n : Nat), charRepeatThreshold ≤ n →
        isRepetitive (String.mk (List.replicate n c)) = true) :=
  ⟨isRepetitive_iff, replicate_char_repetitive⟩

/-- Witness for C7: a reply of ten repeated `a` characters is degenerate. -/
theorem quality_gate_classification_witness :
    isRepetitive (String.mk (List.replicate 10 'a')) = true :=
  quality_gate_classification.2 'a' 10 (by decide)

/-- C8: the Fallback Responder is a deterministic, stateless function of
the lower-cased, trimmed user message: "cv" and "CV" yield the CV-help
string, "bonjour" the greeting, "merci" the acknowledgement, and any
message matching no keyword the generic please-clarify reply; equal
inputs always give equal outputs. -/
theorem fallback_responder_table :
    fallbackResponse "cv" = cvHelpReply
    ∧ fallbackResponse "CV" = cvHelpReply
    ∧ fallbackResponse "bonjour" = greetingReply
    ∧ fallbackResponse "merci" = thanksReply
    ∧ (∀ s : String, noKeywordMatch s → fallbackResponse s = clarifyReply)
    ∧ (∀ s t : String, s = t → fallbackResponse s = fallbackResponse t) := by
  refine ⟨by decide, by decide, by decide, by decide, ?_, ?_⟩
  · intro s hs
    obtain ⟨h1, h2, h3, h4⟩ := hs
    simp only [fallbackResponse]
    simp [h1, h2, h3, h4]
  · intro s t h
    rw [h]

/-- Witness for C8: the input "xyz" matches no keyword and receives the
generic please-clarify reply. -/
theorem fallback_responder_table_witness :
    fallbackResponse "xyz" = clarifyReply :=
  fallback_responder_table.2.2.2.2.1 "xyz" ⟨by decide, by decide, by decide, by decide⟩

/-- C9: whenever the Quality Gate rejects the generated reply, the Chat
Endpoint returns the Fallback Responder's canned string, which is
nonempty; and the endpoint never returns an empty reply at all. -/
theorem chat_endpoint_no_empty_reply :
    (∀ u g : String, isRepetitive g = true →
        chatEndpoint u g = fallbackResponse u ∧ chatEndpoint u g ≠ "")
    ∧ (∀ u g : String, chatEndpoint u g ≠ "") := by
  constructor
  · intro u g hg
    unfold chatEndpoint
    rw [hg]
    exact ⟨rfl, fallbackResponse_ne_empty u⟩
  · intro u g
    unfold chatEndpoint
    split_ifs with h
    · exact fallbackResponse_ne_empty u
    · intro hg
      rw [hg] at h
      exact h isRepetitive_empty

/-- Witness for C9: a comma-run reply is rejected and replaced by the
nonempty CV-help fallback. -/
theorem chat_endpoint_no_empty_reply_witness :
    chatEndpoint "cv" ",,,,,," = fallbackResponse "cv"
    ∧ chatEndpoint "cv" ",,,,,," ≠ "" :=
  chat_endpoint_no_empty_reply.1 "cv" ",,,,,," (by decide)

/-- `sendMessage` returns the state unchanged when the sending flag is
set, a request is loading, or the trimmed input is blank (line 72 of
`App.jsx`). -/
theorem sendMessage_guard (s : ClientState) (now : Nat) (msgId : String)
    (h : s.sendingRef = true ∨ s.loading = true ∨ jsTrim s.input = "") :
    sendMessage s now msgId = s := by
  simp only [sendMessage]
  rcases h with h | h | h <;> simp [h]

/-- `sendMessage` returns the state unchanged when the trimmed input
duplicates the tracked last message (line 80 of `App.jsx`). -/
theorem sendMessage_dup_guard (s : ClientState) (now : Nat) (msgId : String)
    (hdup : isDuplicateMessage s.lastMessage Role.user (jsTrim s.input) now = true) :
    sendMessage s now msgId = s := by
  simp only [sendMessage]
  split_ifs <;> simp_all

/-- On the path where every guard passes and the last message in state is
not an identical user message, `sendMessage` appends the trimmed user
message, raises the flags, records the last message, and issues a request
whose history is the pre-existing message list. -/
theorem sendMessage_appends (s : ClientState) (now : Nat) (msgId : String)
    (hs : s.sendingRef = false) (hl : s.loading = false)
    (ht : ¬ jsTrim s.input = "")
    (hdup : isDuplicateMessage s.lastMessage Role.user (jsTrim s.input) now = false)
    (hpend : s.pendingIds.contains msgId = false)
    (hstate : userDupInState s.messages (jsTrim s.input) = false) :
    sendMessage s now msgId =
      { messages := s.messages ++
          [{ id := msgId, role := Role.user, content := jsTrim s.input, timestamp := now }]
        input := ""
        loading := true
        error := none
        connectionStatus := s.connectionStatus
        sendingRef := true
        pendingIds := msgId :: s.pendingIds
        lastMessage :=
          { role := some Role.user, content := some (jsTrim s.input), timestamp := now }
        request := some
          { message := jsTrim s.input
            history := s.messages.map (fun m => (m.role, m.content))
            userMessageId := msgId } } := by
  have hpend2 : ¬ msgId ∈ s.pendingIds := by simpa using hpend
  simp only [sendMessage]
  simp [hs, hl, ht, hdup, hpend2, hstate]

/-- On a network-level failure (non-OK status, timeout, unreachable) the
response continuation stores the mapped error message, erases the pending
id, clears the flags and leaves everything else unchanged. -/
theorem handleResponse_netFailure (s : ClientState) (req : ChatRequest)
    (out : FetchOutcome) (t : Nat) (aid : String)
    (hreq : s.request = some req) (hfail : out.isNetFailure = true) :
    handleResponse s out t aid =
      { s with
        pendingIds := s.pendingIds.erase req.userMessageId
        error := some (errorMessageFor out)
        connectionStatus :=
          if out = FetchOutcome.networkError then "disconnected" else s.connectionStatus
        loading := false
        sendingRef := false
        request := none } := by
  unfold handleResponse
  rw [hreq]
  cases out with
  | httpError st => simp [errorMessageFor]
  | timeout => simp [errorMessageFor]
  | networkError => simp [errorMessageFor]
  | ok r => simp [FetchOutcome.isNetFailure] at hfail

/-- On an HTTP-OK response with a missing or empty `reply` field the
response continuation stores the invalid-response error, erases the
pending id, clears the flags and leaves everything else unchanged. -/
theorem handleResponse_badReply (s : ClientState) (req : ChatRequest)
    (r : Option String) (t : Nat) (aid : String)
    (hreq : s.request = some req) (hbad : r = none ∨ r = some "") :
    handleResponse s (FetchOutcome.ok r) t aid =
      { s with
        pendingIds := s.pendingIds.erase req.userMessageId
        error := some "Réponse invalide du serveur"
        loading := false
        sendingRef := false
        request := none } := by
  unfold handleResponse
  rw [hreq]
  rcases hbad with h | h <;> subst h <;> simp

/-- Every message present after `sendMessage` was already present or is
the newly appended user message carrying the nonempty trimmed input. -/
theorem sendMessage_messages (s : ClientState) (now : Nat) (msgId : String) :
    ∀ m ∈ (sendMessage s now msgId).messages,
      m ∈ s.messages ∨
        (m.role = Role.user ∧ m.content = jsTrim s.input ∧ ¬ jsTrim s.input = "") := by
  intro m hm
  simp only [sendMessage] at hm
  split_ifs at hm with h1 h2 h3 h4
  · exact Or.inl hm
  · exact Or.inl hm
  · exact Or.inl hm
  · exact Or.inl hm
  · simp only [Bool.or_eq_true, decide_eq_true_eq, not_or] at h1
    rcases List.mem_append.1 hm with h | h
    · exact Or.inl h
    · simp only [List.mem_singleton] at h
      subst h
      exact Or.inr ⟨rfl, rfl, h1.2⟩

/-- Every message present after the response continuation was already
present or is the newly appended assistant message. -/
theorem handleResponse_messages (s : ClientState) (out : FetchOutcome)
    (t : Nat) (aid : String) :
    ∀ m ∈ (handleResponse s out t aid).messages,
      m ∈ s.messages ∨ m.role = Role.assistant := by
  intro m hm
  unfold handleResponse at hm
  cases hr : s.request with
  | none => rw [hr] at hm; exact Or.inl hm
  | some req =>
    rw [hr] at hm
    cases out with
    | httpError st => exact Or.inl hm
    | timeout => exact Or.inl hm
    | networkError => exact Or.inl hm
    | ok r =>
      cases r with
      | none => exact Or.inl hm
      | some reply =>
        simp only [] at hm
        split_ifs at hm with h1 h2 h3 h4
        · exact Or.inl hm
        · exact Or.inl hm
        · exact Or.inl hm
        · exact Or.inl hm
        · rcases List.mem_append.1 hm with h | h
          · exact Or.inl h
          · simp only [List.mem_singleton] at h
            subst h
            exact Or.inr rfl

/-- Counterexample for C1: as frozen the claim quantifies over every
client state and every interleaving - but when the first request
SUCCEEDS between the two submissions, the code appends a second user
message with identical content inside the recency window.  Submitting
"ok" at t=1000, receiving the assistant reply "yep" at t=1200, and
resubmitting "ok" at t=1500 (500 ms after the first submission) leaves a
history with two user messages of content "ok": the assistant append
overwrote `lastMessageRef`, and the in-state check sees the assistant
entry last. -/
theorem duplicate_submission_with_reply_between_counterexample :
    (submit (handleResponse (submit initialState "ok" 1000 "u1")
        (FetchOutcome.ok (some "yep")) 1200 "a1") "ok" 1500 "u2").messages =
      [{ id := "u1", role := Role.user, content := "ok", timestamp := 1000 },
       { id := "a1", role := Role.assistant, content := "yep", timestamp := 1200 },
       { id := "u2", role := Role.user, content := "ok", timestamp := 1500 }] := by
  decide

/-- C1 (amended): from any state able to send, submitting the same
trimmed text twice within the 2-second recency window appends exactly
one user message with that content, PROVIDED no message of the other
role was appended between the submissions - whether the second
submission happens while the first request is still in flight (first
conjunct) or after the first request failed (second conjunct), the
second submission changes the history by nothing.  (When the first
request's reply is appended in between, the second submission is
appended again - see the counterexample above.) -/
theorem duplicate_submission_single_append
    (s : ClientState) (text : String) (t1 t2 : Nat) (id1 id2 aid : String)
    (out : FetchOutcome)
    (hs : s.sendingRef = false) (hl : s.loading = false)
    (ht : ¬ jsTrim text = "")
    (hdup : isDuplicateMessage s.lastMessage Role.user (jsTrim text) t1 = false)
    (hstate : userDupInState s.messages (jsTrim text) = false)
    (hpend : s.pendingIds.contains id1 = false)
    (hwin : t2 - t1 < 2000)
    (hfail : out.isNetFailure = true) :
    (submit (submit s text t1 id1) text t2 id2).messages =
        s.messages ++
          [{ id := id1, role := Role.user, content := jsTrim text, timestamp := t1 }]
    ∧ (submit (handleResponse (submit s text t1 id1) out t2 aid) text t2 id2).messages =
        s.messages ++
          [{ id := id1, role := Role.user, content := jsTrim text, timestamp := t1 }] := by
  have e1 : submit s text t1 id1 = _ :=
    sendMessage_appends (setInput s text) t1 id1 hs hl ht hdup hpend hstate
  constructor
  · show (sendMessage (setInput (submit s text t1 id1) text) t2 id2).messages = _
    rw [e1, sendMessage_guard _ t2 id2 (Or.inl rfl)]
    rfl
  · have e2 := handleResponse_netFailure (submit s text t1 id1)
      { message := jsTrim text
        history := s.messages.map (fun m => (m.role, m.content))
        userMessageId := id1 }
      out t2 aid (by rw [e1]; rfl) hfail
    show (sendMessage (setInput (handleResponse (submit s text t1 id1) out t2 aid) text)
        t2 id2).messages = _
    rw [e2, e1, sendMessage_dup_guard _ t2 id2
      (by simp [setInput, isDuplicateMessage, hwin])]
    rfl

/-- Witness for C1: submitting "hi" at times 100 and 300 from the fresh
client, with a timeout failure in between for the second scenario,
leaves exactly the single user message appended at time 100. -/
theorem duplicate_submission_single_append_witness :
    (submit (submit initialState "hi" 100 "id1") "hi" 300 "id2").messages =
        initialState.messages ++
          [{ id := "id1", role := Role.user, content := jsTrim "hi", timestamp := 100 }]
    ∧ (submit (handleResponse (submit initialState "hi" 100 "id1")
          FetchOutcome.timeout 300 "aid") "hi" 300 "id2").messages =
        initialState.messages ++
          [{ id := "id1", role := Role.user, content := jsTrim "hi", timestamp := 100 }] :=
  duplicate_submission_single_append initialState "hi" 100 300 "id1" "id2" "aid"
    FetchOutcome.timeout (by decide) (by decide) (by decide) (by decide) (by decide)
    (by decide) (by decide) (by decide)

/-- Counterexample for C2: the claim says a repeated user message is
discarded even when a message of the other role was appended in between,
but after submitting "hi" at time 100, receiving the assistant reply
"yo" at time 200, and submitting "hi" again at time 300 (within the
2-second window), the history contains two user messages with content
"hi". -/
theorem dedup_interleaved_counterexample :
    ((submit (handleResponse (submit initialState "hi" 100 "id1")
          (FetchOutcome.ok (some "yo")) 200 "aid1") "hi" 300 "id2").messages.filter
        (fun m => decide (m.role = Role.user) && decide (m.content = "hi"))).length = 2 := by
  decide

/-- C2 amended: the de-duplication check compares the new message against
the most recently appended message of ANY role (the single
`lastMessageRef` record), so a submission is discarded iff that last
record has the same role, identical content, and lies within the recency
window; in particular a repeated user message is appended again whenever
a message of the other role was appended in between. -/
theorem dedup_compares_last_appended_any_role
    (s : ClientState) (text : String) (now : Nat) (msgId : String)
    (hs : s.sendingRef = false) (hl : s.loading = false)
    (ht : ¬ jsTrim text = "")
    (hstate : userDupInState s.messages (jsTrim text) = false)
    (hpend : s.pendingIds.contains msgId = false) :
    (submit s text now msgId).messages = s.messages ↔
      (s.lastMessage.role = some Role.user ∧
        s.lastMessage.content = some (jsTrim text) ∧
        now - s.lastMessage.timestamp < 2000) := by
  constructor
  · intro hmsg
    by_contra hnot
    have hdup : isDuplicateMessage s.lastMessage Role.user (jsTrim text) now = false := by
      cases hcase : isDuplicateMessage s.lastMessage Role.user (jsTrim text) now
      · rfl
      · exfalso
        simp only [isDuplicateMessage, Bool.and_eq_true, decide_eq_true_eq] at hcase
        exact hnot ⟨hcase.1.1, hcase.1.2, hcase.2⟩
    rw [show (submit s text now msgId) = _ from
      sendMessage_appends (setInput s text) now msgId hs hl ht hdup hpend hstate] at hmsg
    have hlen := congrArg List.length hmsg
    simp only [setInput, List.length_append, List.length_cons, List.length_nil] at hlen
    omega
  · intro hdup
    have hd : isDuplicateMessage (setInput s text).lastMessage Role.user
        (jsTrim (setInput s text).input) now = true := by
      simp [setInput, isDuplicateMessage, hdup.1, hdup.2.1, hdup.2.2]
    rw [show (submit s text now msgId) = setInput s text from
      sendMessage_dup_guard _ now msgId hd]
    rfl

/-- Witness for C2's amended statement: with the last appended message
recorded as a recent user "hi", resubmitting "hi" leaves the history
unchanged. -/
theorem dedup_compares_last_appended_any_role_witness :
    (submit
        { initialState with
          lastMessage :=
            { role := some Role.user, content := some "hi", timestamp := 0 } }
        "hi" 100 "w1").messages =
      ({ initialState with
          lastMessage :=
            { role := some Role.user, content := some "hi", timestamp := 0 } } :
        ClientState).messages :=
  (dedup_compares_last_appended_any_role _ "hi" 100 "w1" (by decide) (by decide)
      (by decide) (by decide) (by decide)).mpr (by decide)

/-- C3 exhibits a code bug: after a send of "hello" fails by timeout, a
resend of the same text three seconds later (outside the 2-second dedup
window) hits the duplicate-in-state branch of the `setMessages` updater,
which clears `sendingRef` and `loading` - yet the fetch is still issued,
so the client reaches a state with a request in flight and both guards
clear, through which a second concurrent send would pass. -/
theorem sending_flag_clear_with_request_in_flight :
    ((submit (handleResponse (submit initialState "hello" 0 "id1")
          FetchOutcome.timeout 1000 "aid") "hello" 3000 "id2").request.isSome = true)
    ∧ ((submit (handleResponse (submit initialState "hello" 0 "id1")
          FetchOutcome.timeout 1000 "aid") "hello" 3000 "id2").sendingRef = false)
    ∧ ((submit (handleResponse (submit initialState "hello" 0 "id1")
          FetchOutcome.timeout 1000 "aid") "hello" 3000 "id2").loading = false) := by
  decide

/-- C4: the history transmitted with a send is assembled from exactly the
messages that existed before the request was issued, and the send appends
no assistant message - the reply is appended only by the later response
step, so the history never contains the reply being computed. -/
theorem history_excludes_pending_reply
    (s : ClientState) (text : String) (now : Nat) (msgId : String)
    (req : ChatRequest)
    (hfree : s.request = none)
    (hreq : (submit s text now msgId).request = some req) :
    req.history = s.messages.map (fun m => (m.role, m.content))
    ∧ ∀ m ∈ (submit s text now msgId).messages,
        m.role = Role.assistant → m ∈ s.messages := by
  constructor
  · simp only [submit, sendMessage] at hreq
    split_ifs at hreq with h1 h2 h3 h4
    · simp [setInput, hfree] at hreq
    · simp [setInput, hfree] at hreq
    · simp [setInput, hfree] at hreq
    · injection hreq with h
      subst h
      rfl
    · injection hreq with h
      subst h
      rfl
  · intro m hm hrole
    rcases sendMessage_messages (setInput s text) now msgId m hm with h | h
    · exact h
    · rw [hrole] at h
      cases h.1


/-- Witness for C4: a send of "hi" from the fresh client issues a request
whose history is the (empty) pre-existing message list. -/
theorem history_excludes_pending_reply_witness :
    ({ message := "hi", history := [], userMessageId := "id1" } : ChatRequest).history =
      initialState.messages.map (fun m => (m.role, m.content)) :=
  (history_excludes_pending_reply initialState "hi" 0 "id1"
    { message := "hi", history := [], userMessageId := "id1" } rfl (by decide)).1

/-- C5: every network-level failure (non-OK HTTP status, timeout,
unreachable backend) is mapped to exactly the one error message of its
category, appends no message, triggers no retry (the request slot is
cleared and no new request is issued), and clears the loading and
sending flags so the input stays usable. -/
theorem failed_send_maps_error_no_retry
    (s : ClientState) (req : ChatRequest) (out : FetchOutcome)
    (t : Nat) (aid : String)
    (hreq : s.request = some req) (hfail : out.isNetFailure = true) :
    (handleResponse s out t aid).messages = s.messages
    ∧ (handleResponse s out t aid).error = some (errorMessageFor out)
    ∧ (handleResponse s out t aid).loading = false
    ∧ (handleResponse s out t aid).sendingRef = false
    ∧ (handleResponse s out t aid).request = none := by
  rw [handleResponse_netFailure s req out t aid hreq hfail]
  exact ⟨rfl, rfl, rfl, rfl, rfl⟩

/-- Witness for C5: a 500 response to the request issued by sending "hi"
yields the server-error message, no appended message, and cleared flags. -/
theorem failed_send_maps_error_no_retry_witness :
    (handleResponse (submit initialState "hi" 0 "id1")
        (FetchOutcome.httpError 500) 50 "aid").messages =
      (submit initialState "hi" 0 "id1").messages
    ∧ (handleResponse (submit initialState "hi" 0 "id1")
        (FetchOutcome.httpError 500) 50 "aid").error =
      some (errorMessageFor (FetchOutcome.httpError 500))
    ∧ (handleResponse (submit initialState "hi" 0 "id1")
        (FetchOutcome.httpError 500) 50 "aid").loading = false
    ∧ (handleResponse (submit initialState "hi" 0 "id1")
        (FetchOutcome.httpError 500) 50 "aid").sendingRef = false
    ∧ (handleResponse (submit initialState "hi" 0 "id1")
        (FetchOutcome.httpError 500) 50 "aid").request = none :=
  failed_send_maps_error_no_retry (submit initialState "hi" 0 "id1")
    { message := "hi", history := [], userMessageId := "id1" }
    (FetchOutcome.httpError 500) 50 "aid" (by decide) (by decide)

/-- C6: an HTTP-OK response whose JSON body lacks a `reply` field or
carries a falsy (empty) one is treated as a malformed response: the
short invalid-response error is surfaced, no assistant message is
appended, no retry is issued, and the flags are cleared. -/
theorem malformed_response_handled
    (s : ClientState) (req : ChatRequest) (r : Option String)
    (t : Nat) (aid : String)
    (hreq : s.request = some req) (hbad : r = none ∨ r = some "") :
    (handleResponse s (FetchOutcome.ok r) t aid).messages = s.messages
    ∧ (handleResponse s (FetchOutcome.ok r) t aid).error =
        some "Réponse invalide du serveur"
    ∧ (handleResponse s (FetchOutcome.ok r) t aid).loading = false
    ∧ (handleResponse s (FetchOutcome.ok r) t aid).sendingRef = false
    ∧ (handleResponse s (FetchOutcome.ok r) t aid).request = none := by
  rw [handleResponse_badReply s req r t aid hreq hbad]
  exact ⟨rfl, rfl, rfl, rfl, rfl⟩

/-- Witness for C6: an HTTP-OK body with no `reply` field, received for
the request issued by sending "hi", yields the invalid-response error
and appends nothing. -/
theorem malformed_response_handled_witness :
    (handleResponse (submit initialState "hi" 0 "id1")
        (FetchOutcome.ok none) 50 "aid").messages =
      (submit initialState "hi" 0 "id1").messages
    ∧ (handleResponse (submit initialState "hi" 0 "id1")
        (FetchOutcome.ok none) 50 "aid").error = some "Réponse invalide du serveur"
    ∧ (handleResponse (submit initialState "hi" 0 "id1")
        (FetchOutcome.ok none) 50 "aid").loading = false
    ∧ (handleResponse (submit initialState "hi" 0 "id1")
        (FetchOutcome.ok none) 50 "aid").sendingRef = false
    ∧ (handleResponse (submit initialState "hi" 0 "id1")
        (FetchOutcome.ok none) 50 "aid").request = none :=
  malformed_response_handled (submit initialState "hi" 0 "id1")
    { message := "hi", history := [], userMessageId := "id1" }
    none 50 "aid" (by decide) (Or.inl rfl)

/-- C10: in every reachable client state every user message has nonempty
content; `sendMessage` is the identity when the trimmed input is blank;
and any message newly appended by `sendMessage` is a user message whose
content is exactly the nonempty trimmed input. -/
theorem user_messages_nonempty_trimmed :
    (∀ s : ClientState, Reachable s →
        ∀ m ∈ s.messages, m.role = Role.user → ¬ m.content = "")
    ∧ (∀ (s : ClientState) (now : Nat) (msgId : String),
        jsTrim s.input = "" → sendMessage s now msgId = s)
    ∧ (∀ (s : ClientState) (now : Nat) (msgId : String) (m : Message),
        m ∈ (sendMessage s now msgId).messages → ¬ m ∈ s.messages →
        m.role = Role.user ∧ m.content = jsTrim s.input ∧ ¬ m.content = "") := by
  refine ⟨?_, ?_, ?_⟩
  · intro s hs
    induction hs with
    | init => intro m hm; cases hm
    | type s text _ ih => exact ih
    | send s now msgId _ ih =>
        intro m hm hrole
        rcases sendMessage_messages s now msgId m hm with h | h
        · exact ih m h hrole
        · rw [h.2.1]; exact h.2.2
    | response s out t aid _ ih =>
        intro m hm hrole
        rcases handleResponse_messages s out t aid m hm with h | h
        · exact ih m h hrole
        · rw [hrole] at h; cases h
    | clear s _ ih => intro m hm; cases hm
  · intro s now msgId h
    exact sendMessage_guard s now msgId (Or.inr (Or.inr h))
  · intro s now msgId m hm hnew
    rcases sendMessage_messages s now msgId m hm with h | h
    · exact absurd h hnew
    · exact ⟨h.1, h.2.1, by rw [h.2.1]; exact h.2.2⟩

/-- Witness for C10: the user message appended by sending " hi " from
the fresh client carries the nonempty trimmed content "hi". -/
theorem user_messages_nonempty_trimmed_witness :
    ¬ ({ id := "w1", role := Role.user, content := "hi", timestamp := 7 } : Message).content = "" :=
  user_messages_nonempty_trimmed.1 (submit initialState " hi " 7 "w1")
    (Reachable.send (setInput initialState " hi ") 7 "w1"
      (Reachable.type initialState " hi " Reachable.init))
    { id := "w1", role := Role.user, content := "hi", timestamp := 7 }
    (by decide) rfl

end ChatApp
